import Mathlib

/-!
Verification of the kntor-mcp-server request-dispatch layer.

The definitions below are a shallow embedding of the TypeScript source:
  * `src/auth/api-key.ts` — `validateApiKey`, `extractApiKey`
  * `src/tools/index.ts`  — the tool registry and `executeTool`
  * `src/index.ts`        — `handleMCPMessage` and the `fetch` handler's
                            POST `/mcp` and POST `/messages` blocks.

JavaScript values are modelled explicitly: an absent object property is
`Option.none`, JSON documents are the `Json` inductive, and the builtin
`JSON.stringify` is modelled by an executable serializer (`Json.stringify`;
the source always calls it with indent 2 — no claim depends on whitespace,
so the model serializes compactly).  Network effects (the key-validation
RPC, body parsing, tool executor invocations) are recorded in an explicit
event trace, and the behaviour of external collaborators is an input
(`CollabOutcome`, `ToolOracle`).
-/

namespace KntorMcp

/-- `pre` is a prefix of `s`, over character lists. -/
def charsStartsWith : List Char → List Char → Bool
  | _, [] => true
  | [], _ :: _ => false
  | c :: cs, p :: ps => c == p && charsStartsWith cs ps

/-- JS `String.startsWith`. -/
def jsStartsWith (s pre : String) : Bool :=
  charsStartsWith s.toList pre.toList

/-- The pattern occurs somewhere in the character list. -/
def charsContains (pat : List Char) : List Char → Bool
  | [] => charsStartsWith [] pat
  | c :: cs => charsStartsWith (c :: cs) pat || charsContains pat cs

/-- JS `String.includes`. -/
def jsIncludes (s pat : String) : Bool :=
  charsContains pat.toList s.toList

/-- Replace the first occurrence of `pat` in the list by `rep`. -/
def replaceFirstChars (rep pat : List Char) : List Char → List Char
  | [] => if pat.isEmpty then rep else []
  | c :: cs =>
      if charsStartsWith (c :: cs) pat then rep ++ (c :: cs).drop pat.length
      else c :: replaceFirstChars rep pat cs

/-- JS `String.replace` with a string pattern: replaces the first
occurrence only. -/
def jsReplaceFirst (s pat rep : String) : String :=
  String.mk (replaceFirstChars rep.toList pat.toList s.toList)

/-- JS `String.substring(0, n)` (the keys involved are ASCII, so
character-based truncation coincides with code-unit truncation). -/
def jsTake (s : String) (n : Nat) : String :=
  String.mk (s.toList.take n)

/-- JS `Array.join`. -/
def jsJoin (sep : String) : List String → String
  | [] => ""
  | [x] => x
  | x :: xs => x ++ sep ++ jsJoin sep xs

/-- Decoded JSON documents (the result of `request.json()` / the payloads
fed to `JSON.stringify`).  Object fields keep insertion order, as JS does. -/
inductive Json where
  | null
  | bool (b : Bool)
  | num (n : Int)
  | str (s : String)
  | arr (elems : List Json)
  | obj (fields : List (String × Json))
deriving Repr

/-- JS truthiness of a JSON value (used for `params.arguments || {}`). -/
def Json.jsTruthy : Json → Bool
  | .null => false
  | .bool b => b
  | .num n => n ≠ 0
  | .str s => s ≠ ""
  | .arr _ => true
  | .obj _ => true

/-- JSON string escaping for the serializer. -/
def escapeJsonChar (c : Char) : String :=
  if c = '"' then "\\\""
  else if c = '\\' then "\\\\"
  else if c = '\n' then "\\n"
  else if c = '\r' then "\\r"
  else if c = '\t' then "\\t"
  else String.singleton c

/-- Escape a whole string for JSON output. -/
def escapeJson (s : String) : String :=
  String.join (s.toList.map escapeJsonChar)

mutual
/-- Models the builtin `JSON.stringify` on defined values (the source calls
`JSON.stringify(v, null, 2)`; whitespace is irrelevant to every claim, so
this model is the compact form). -/
def Json.stringify : Json → String
  | .null => "null"
  | .bool true => "true"
  | .bool false => "false"
  | .num n => toString n
  | .str s => "\"" ++ escapeJson s ++ "\""
  | .arr elems => "[" ++ stringifyList elems ++ "]"
  | .obj fields => "\x7b" ++ stringifyFields fields ++ "\x7d"

/-- Comma-separated serialization of array elements. -/
def stringifyList : List Json → String
  | [] => ""
  | [x] => Json.stringify x
  | x :: xs => Json.stringify x ++ "," ++ stringifyList xs

/-- Comma-separated serialization of object fields. -/
def stringifyFields : List (String × Json) → String
  | [] => ""
  | [(k, v)] => "\"" ++ escapeJson k ++ "\":" ++ Json.stringify v
  | (k, v) :: fs => "\"" ++ escapeJson k ++ "\":" ++ Json.stringify v ++ "," ++ stringifyFields fs
end

/-- A JSON-RPC message id: string, number, or the literal `null`. -/
inductive RpcId where
  | s (v : String)
  | n (v : Int)
  | null
deriving Repr, DecidableEq

/-- Wire form of an id. -/
def RpcId.toJson : RpcId → Json
  | .s v => .str v
  | .n v => .num v
  | .null => .null

/-- The `error` member of a JSON-RPC response (src/index.ts, `JSONRPCResponse`). -/
structure RpcError where
  code : Int
  message : String
  data : Option Json := none
deriving Repr

/-- A JSON-RPC response envelope (src/index.ts, `JSONRPCResponse`).
Exactly the fields the source ever sets; `result`/`error` absent is `none`. -/
structure JSONRPCResponse where
  id : RpcId
  result : Option Json := none
  error : Option RpcError := none
deriving Repr

/-- `jsonRPCSuccess` from src/index.ts. -/
def jsonRPCSuccess (id : RpcId) (result : Json) : JSONRPCResponse :=
  { id := id, result := some result }

/-- `jsonRPCError` from src/index.ts.  `data` is the optional third member. -/
def jsonRPCError (id : RpcId) (code : Int) (message : String)
    (data : Option Json := none) : JSONRPCResponse :=
  { id := id, error := some { code := code, message := message, data := data } }

/-- Wire form of a response, as `JSON.stringify` sees it: `undefined`
members (`none`) are dropped, field order is insertion order. -/
def JSONRPCResponse.toJson (r : JSONRPCResponse) : Json :=
  .obj ([("jsonrpc", .str "2.0"), ("id", r.id.toJson)]
    ++ (match r.result with
        | some v => [("result", v)]
        | none => [])
    ++ (match r.error with
        | some e =>
            [("error", .obj ([("code", .num e.code), ("message", .str e.message)]
              ++ (match e.data with
                  | some d => [("data", d)]
                  | none => [])))]
        | none => []))

/-- The keys of `MCP_ERRORS` in src/index.ts. -/
inductive MCPErrorKind where
  | API_KEY_MISSING
  | API_KEY_INVALID_FORMAT
  | API_KEY_INVALID
  | API_KEY_INACTIVE
  | API_KEY_EXPIRED
  | RATE_LIMIT_EXCEEDED
  | SERVER_CONFIG_ERROR
deriving Repr, DecidableEq

/-- `MCP_ERRORS[...].code`. -/
def MCPErrorKind.code : MCPErrorKind → Int
  | .API_KEY_MISSING => -32001
  | .API_KEY_INVALID_FORMAT => -32002
  | .API_KEY_INVALID => -32003
  | .API_KEY_INACTIVE => -32004
  | .API_KEY_EXPIRED => -32005
  | .RATE_LIMIT_EXCEEDED => -32006
  | .SERVER_CONFIG_ERROR => -32010

/-- `MCP_ERRORS[...].message`. -/
def MCPErrorKind.msg : MCPErrorKind → String
  | .API_KEY_MISSING => "API key required"
  | .API_KEY_INVALID_FORMAT => "Invalid API key format"
  | .API_KEY_INVALID => "Invalid or expired API key"
  | .API_KEY_INACTIVE => "API key is inactive"
  | .API_KEY_EXPIRED => "API key has expired"
  | .RATE_LIMIT_EXCEEDED => "Rate limit exceeded"
  | .SERVER_CONFIG_ERROR => "Server configuration error"

/-- `MCP_ERRORS[...].hint`. -/
def MCPErrorKind.hint : MCPErrorKind → String
  | .API_KEY_MISSING => "Provide your API key in the x-api-key header or as Bearer token in Authorization header"
  | .API_KEY_INVALID_FORMAT => "API key must start with \"kntor_\" prefix. Example: kntor_abc123..."
  | .API_KEY_INVALID => "Check that your API key is correct and has not been revoked"
  | .API_KEY_INACTIVE => "Contact your administrator to reactivate this API key"
  | .API_KEY_EXPIRED => "Request a new API key from your administrator"
  | .RATE_LIMIT_EXCEEDED => "You have exceeded your monthly API call limit. Upgrade your plan or wait until next month"
  | .SERVER_CONFIG_ERROR => "The server is misconfigured. Please contact support"

/-- `errorType.toLowerCase()` as used for the `error_type` data member. -/
def MCPErrorKind.lowerName : MCPErrorKind → String
  | .API_KEY_MISSING => "api_key_missing"
  | .API_KEY_INVALID_FORMAT => "api_key_invalid_format"
  | .API_KEY_INVALID => "api_key_invalid"
  | .API_KEY_INACTIVE => "api_key_inactive"
  | .API_KEY_EXPIRED => "api_key_expired"
  | .RATE_LIMIT_EXCEEDED => "rate_limit_exceeded"
  | .SERVER_CONFIG_ERROR => "server_config_error"

/-- `ApiKeyValidationResult` (src/types.ts), restricted to the fields the
dispatch layer reads.  An absent (undefined) field is `none`. -/
structure ApiKeyValidationResult where
  valid : Bool
  error : Option String := none
  message : Option String := none
  api_key_id : Option String := none
  brand_id : Option String := none
  brand_name : Option String := none
  tier : Option String := none
  monthly_limit : Option Int := none
  current_usage : Option Int := none
  remaining_calls : Option Int := none
  user_id : Option String := none
  user_email : Option String := none
  user_role : Option String := none
deriving Repr

/-- JS `a || b` on an optional string with a string default:
the default is taken when the value is absent or falsy (empty). -/
def jsOrString (v : Option String) (dflt : String) : String :=
  match v with
  | some s => if s = "" then dflt else s
  | none => dflt

/-- `MCPContext` as constructed in the `tools/call` branch of
src/index.ts (the non-null assertions keep the raw, possibly absent,
values; `userEmail`/`userRole` apply the `||` defaults). -/
structure MCPContext where
  apiKeyId : Option String
  brandId : Option String
  brandName : Option String
  tier : Option String
  userId : Option String
  userEmail : String
  userRole : String
deriving Repr

/-- The context construction at src/index.ts lines 229-237. -/
def buildContext (r : ApiKeyValidationResult) : MCPContext :=
  { apiKeyId := r.api_key_id
    brandId := r.brand_id
    brandName := r.brand_name
    tier := r.tier
    userId := r.user_id
    userEmail := jsOrString r.user_email ""
    userRole := jsOrString r.user_role "authenticated" }

/-- Behaviour of the external key-validation collaborator for the one
`fetch` in `validateApiKey`: the call can reject, return non-OK, return a
body that fails to parse, or return a decoded result. -/
inductive CollabOutcome where
  | networkError
  | httpError (body : String)
  | jsonError
  | ok (result : ApiKeyValidationResult)
deriving Repr

/-- Observable effects of request handling, in emission order. -/
inductive Event where
  | collabValidate (key : String)
  | parseBody
  | toolInvoke (name : String) (args : Json)
deriving Repr

/-- `validateApiKey` from src/auth/api-key.ts.  Returns the validation
result together with the trace of collaborator network calls (zero or
one `collabValidate` events). -/
def validateApiKey (apiKey : String) (collab : CollabOutcome) :
    ApiKeyValidationResult × List Event :=
  if apiKey == "" || !jsStartsWith apiKey "kntor_" then
    ({ valid := false
       error := some "invalid_format"
       message := some "API key must start with kntor_" }, [])
  else
    match collab with
    | .networkError =>
        ({ valid := false
           error := some "internal_error"
           message := some "Internal server error during validation" },
         [.collabValidate apiKey])
    | .httpError _ =>
        ({ valid := false
           error := some "validation_error"
           message := some "Failed to validate API key" },
         [.collabValidate apiKey])
    | .jsonError =>
        ({ valid := false
           error := some "internal_error"
           message := some "Internal server error during validation" },
         [.collabValidate apiKey])
    | .ok r => (r, [.collabValidate apiKey])

/-- The request headers the dispatch layer reads.  `none` models an
absent header; `Headers.get` on a present header yields its (possibly
empty) string value. -/
structure RequestHeaders where
  xApiKey : Option String := none
  authorization : Option String := none
  accept : Option String := none
  mcpSessionId : Option String := none
deriving Repr

/-- JS string truthiness of a nullable header value. -/
def headerTruthy : Option String → Bool
  | some s => s ≠ ""
  | none => false

/-- `extractApiKey` from src/auth/api-key.ts: the `x-api-key` header when
truthy, else an `Authorization` header starting with `Bearer kntor_`
(with the first `Bearer ` occurrence removed), else no credential. -/
def extractApiKey (h : RequestHeaders) : Option String :=
  if headerTruthy h.xApiKey then h.xApiKey
  else
    match h.authorization with
    | some a =>
        if jsStartsWith a "Bearer kntor_" then some (jsReplaceFirst a "Bearer " "")
        else none
    | none => none

/-- `getAuthError` from src/index.ts: maps a failed validation result's
error tag to an `MCP_ERRORS` key (a falsy/absent tag maps to
`API_KEY_INVALID`, as does any unrecognized tag). -/
def getAuthError (r : ApiKeyValidationResult) : MCPErrorKind :=
  match r.error with
  | none => .API_KEY_INVALID
  | some e =>
      if e = "invalid_format" then .API_KEY_INVALID_FORMAT
      else if e = "not_found" ∨ e = "validation_error" then .API_KEY_INVALID
      else if e = "inactive" then .API_KEY_INACTIVE
      else if e = "expired" then .API_KEY_EXPIRED
      else if e = "rate_limit" then .RATE_LIMIT_EXCEEDED
      else if e = "config_error" ∨ e = "internal_error" then .SERVER_CONFIG_ERROR
      else .API_KEY_INVALID

/-- Appends a field only when the value is defined (a `JSON.stringify`
of an object drops `undefined` members). -/
def optStrField (k : String) (v : Option String) : List (String × Json) :=
  match v with
  | some s => [(k, .str s)]
  | none => []

/-- Numeric variant of `optStrField`. -/
def optNumField (k : String) (v : Option Int) : List (String × Json) :=
  match v with
  | some n => [(k, .num n)]
  | none => []

/-- `createAuthErrorResponse` from src/index.ts: a null-id JSON-RPC error
carrying hint/error_type/documentation plus caller-supplied data, with
HTTP 500 for `SERVER_CONFIG_ERROR` and 401 otherwise. -/
def createAuthErrorResponse (k : MCPErrorKind)
    (additionalData : List (String × Json) := []) : JSONRPCResponse × Nat :=
  (jsonRPCError .null k.code k.msg
    (some (.obj ([("hint", .str k.hint),
                  ("error_type", .str k.lowerName),
                  ("documentation", .str "https://github.com/edgargomero/kntor-mcp-server#authentication")]
                 ++ additionalData))),
   if k = .SERVER_CONFIG_ERROR then 500 else 401)

/-- The `additionalData` both POST paths attach on a failed validation:
the first 12 characters of the provided key plus the collaborator's
message (dropped when absent). -/
def authFailureData (apiKey : String) (r : ApiKeyValidationResult) :
    List (String × Json) :=
  [("provided_key_prefix", .str (jsTake apiKey 12 ++ "..."))]
    ++ optStrField "server_message" r.message

/-- `ToolResult` (src/types.ts): `{success:true, data}` or
`{success:false, error}`; absent members are `none`. -/
structure ToolResult where
  success : Bool
  data : Option Json := none
  error : Option String := none
deriving Repr

/-- What a registered tool executor does when invoked: return a result,
throw a Zod validation error (an `Error` named `ZodError`), throw some
other `Error`, or throw a non-`Error` value. -/
inductive ExecBehavior where
  | returns (r : ToolResult)
  | throwsZod (msg : String)
  | throwsError (msg : String)
  | throwsNonError
deriving Repr

/-- Abstraction of the registered executors in src/tools/index.ts (each
wraps a schema parse plus REST calls — pure network behaviour, supplied
as an oracle keyed by tool name, input and context). -/
def ToolOracle : Type :=
  String → Json → MCPContext → ExecBehavior

/-- `Object.keys(toolExecutors)` from src/tools/index.ts. -/
def toolNames : List String :=
  ["get_availability", "schedule_appointment"]

/-- `executeTool` from src/tools/index.ts: unknown names short-circuit to
a failure result; executor throws are caught and converted (`ZodError`
to an `Invalid input:` failure, other errors to their message, non-Error
throws to `Unknown error occurred`). -/
def executeTool (oracle : ToolOracle) (toolName : String) (input : Json)
    (context : MCPContext) : ToolResult :=
  if toolNames.contains toolName then
    match oracle toolName input context with
    | .returns r => r
    | .throwsZod m => { success := false, error := some ("Invalid input: " ++ m) }
    | .throwsError m => { success := false, error := some m }
    | .throwsNonError => { success := false, error := some "Unknown error occurred" }
  else
    { success := false
      error := some ("Unknown tool: " ++ toolName ++ ". Available tools: "
        ++ jsJoin ", " toolNames) }

/-- A static tool descriptor `{name, description, inputSchema}`. -/
structure ToolDescriptor where
  name : String
  description : String
  inputSchema : Json
deriving Repr

/-- `getAvailabilityTool` from src/tools/get-availability.ts. -/
def getAvailabilityTool : ToolDescriptor :=
  { name := "get_availability"
    description := "Check professional availability for a specific date.\n\nIf professional_id is provided: Returns detailed availability for that professional.\nIf professional_id is NOT provided: Returns list of all available professionals on that date.\n\nUse profession_type to filter by specialty (e.g., \x27psychologist\x27, \x27speech_therapist\x27, \x27occupational_therapist\x27)."
    inputSchema := .obj
      [("type", .str "object"),
       ("properties", .obj
         [("jwt", .obj [("type", .str "string"),
                        ("description", .str "User JWT token from Supabase authentication")]),
          ("date", .obj [("type", .str "string"),
                         ("description", .str "Date to check availability (YYYY-MM-DD format)"),
                         ("pattern", .str "^\\d\x7b4\x7d-\\d\x7b2\x7d-\\d\x7b2\x7d$")]),
          ("professional_id", .obj [("type", .str "string"),
                                    ("description", .str "UUID of specific professional to check (optional)")]),
          ("profession_type", .obj [("type", .str "string"),
                                    ("description", .str "Filter by profession type (optional)")])]),
       ("required", .arr [.str "jwt", .str "date"])] }

/-- `scheduleAppointmentTool` from src/tools/schedule-appointment.ts. -/
def scheduleAppointmentTool : ToolDescriptor :=
  { name := "schedule_appointment"
    description := "Schedule a new appointment for a patient with a professional.\n\nBefore scheduling, you should:\n1. Use get_availability to verify the professional is available on the requested date/time\n2. Confirm the patient exists in the system\n\nThe appointment will be created in \x27scheduled\x27 status."
    inputSchema := .obj
      [("type", .str "object"),
       ("properties", .obj
         [("jwt", .obj [("type", .str "string"),
                        ("description", .str "User JWT token from Supabase authentication")]),
          ("patient_id", .obj [("type", .str "string"),
                               ("description", .str "UUID of the patient")]),
          ("professional_id", .obj [("type", .str "string"),
                                    ("description", .str "UUID of the professional")]),
          ("service_id", .obj [("type", .str "string"),
                               ("description", .str "UUID of the service/treatment (optional)")]),
          ("appointment_date", .obj [("type", .str "string"),
                                     ("description", .str "Appointment date (YYYY-MM-DD format)"),
                                     ("pattern", .str "^\\d\x7b4\x7d-\\d\x7b2\x7d-\\d\x7b2\x7d$")]),
          ("start_time", .obj [("type", .str "string"),
                               ("description", .str "Start time (HH:MM format, 24-hour)"),
                               ("pattern", .str "^\\d\x7b2\x7d:\\d\x7b2\x7d$")]),
          ("duration_minutes", .obj [("type", .str "integer"),
                                     ("description", .str "Appointment duration in minutes (default: 60)"),
                                     ("minimum", .num 15),
                                     ("maximum", .num 480)]),
          ("notes", .obj [("type", .str "string"),
                          ("description", .str "Optional appointment notes"),
                          ("maxLength", .num 500)])]),
       ("required", .arr [.str "jwt", .str "patient_id", .str "professional_id",
                          .str "appointment_date", .str "start_time"])] }

/-- The `tools` array from src/tools/index.ts. -/
def tools : List ToolDescriptor :=
  [getAvailabilityTool, scheduleAppointmentTool]

/-- The `initialize` result payload from src/index.ts. -/
def initializeResult : Json :=
  .obj [("protocolVersion", .str "2024-11-05"),
        ("serverInfo", .obj [("name", .str "kntor-mcp-server"),
                             ("version", .str "1.0.0")]),
        ("capabilities", .obj [("tools", .obj []),
                               ("resources", .obj []),
                               ("prompts", .obj [])])]

/-- The `tools/list` result payload: the registry mapped to the wire shape. -/
def toolsListResult : Json :=
  .obj [("tools", .arr (tools.map fun t =>
    .obj [("name", .str t.name),
          ("description", .str t.description),
          ("inputSchema", t.inputSchema)]))]

/-- The members of a decoded message's `params` that `tools/call` reads.
A non-object `params` value behaves as the record with both absent. -/
structure RawParams where
  name : Option String := none
  arguments : Option Json := none
deriving Repr

/-- A decoded inbound JSON-RPC message, field by field; `none` is an
absent (undefined) member.  A decoded value that is not an object (JS
property access yields undefined) behaves as the all-absent record. -/
structure RawMessage where
  jsonrpc : Option String := none
  id : Option RpcId := none
  method : Option String := none
  params : Option RawParams := none
deriving Repr

/-- JS truthiness of the `method` member (`!message.method`). -/
def methodTruthy : Option String → Bool
  | some s => s ≠ ""
  | none => false

/-- The per-message formation check of the POST paths:
`message.jsonrpc === '2.0' && message.method` truthy. -/
def validFormat (m : RawMessage) : Bool :=
  m.jsonrpc == some "2.0" && methodTruthy m.method

/-- `params?.name` when truthy (`!params?.name` rejects absent params,
absent name, and the empty string). -/
def paramsName (p : Option RawParams) : Option String :=
  match p with
  | some q =>
      match q.name with
      | some s => if s = "" then none else some s
      | none => none
  | none => none

/-- `params.arguments || {}` (falsy argument values fall back to `{}`). -/
def paramsArguments (p : Option RawParams) : Json :=
  match p with
  | some q =>
      match q.arguments with
      | some a => if a.jsTruthy then a else .obj []
      | none => .obj []
  | none => .obj []

/-- `apiKeyResult.remaining_calls !== undefined && remaining_calls <= 0`. -/
def rateLimited (r : ApiKeyValidationResult) : Bool :=
  match r.remaining_calls with
  | some n => n ≤ 0
  | none => false

/-- A `{type:"text", text}` content item; `text` is dropped when the
serialized value is undefined. -/
def textContent (t : Option String) : Json :=
  .obj ([("type", .str "text")]
    ++ (match t with
        | some s => [("text", .str s)]
        | none => []))

/-- The `data` member of the rate-limit error from the `tools/call`
branch (`reset_date` is the computed first-of-next-month instant,
supplied as an input). -/
def rateLimitData (r : ApiKeyValidationResult) (resetDate : String) : Json :=
  .obj ([("hint", .str MCPErrorKind.RATE_LIMIT_EXCEEDED.hint)]
    ++ optNumField "monthly_limit" r.monthly_limit
    ++ optNumField "current_usage" r.current_usage
    ++ [("reset_date", .str resetDate),
        ("upgrade_url", .str "https://kntor.io/pricing")])

/-- `handleMCPMessage` from src/index.ts: the switch over `method`,
returning the JSON-RPC response together with the trace of tool-executor
invocations. -/
def handleMCPMessage (msg : RawMessage) (apiKeyResult : ApiKeyValidationResult)
    (oracle : ToolOracle) (resetDate : String) : JSONRPCResponse × List Event :=
  let id := msg.id.getD .null
  match msg.method.getD "" with
  | "initialize" => (jsonRPCSuccess id initializeResult, [])
  | "initialized" => (jsonRPCSuccess id (.obj []), [])
  | "notifications/initialized" => (jsonRPCSuccess id (.obj []), [])
  | "tools/list" => (jsonRPCSuccess id toolsListResult, [])
  | "tools/call" =>
      match paramsName msg.params with
      | none => (jsonRPCError id (-32602) "Invalid params: tool name required", [])
      | some name =>
          if rateLimited apiKeyResult then
            (jsonRPCError id MCPErrorKind.RATE_LIMIT_EXCEEDED.code
              MCPErrorKind.RATE_LIMIT_EXCEEDED.msg
              (some (rateLimitData apiKeyResult resetDate)), [])
          else
            let context := buildContext apiKeyResult
            let args := paramsArguments msg.params
            let result := executeTool oracle name args context
            if result.success then
              (jsonRPCSuccess id
                (.obj [("content", .arr [textContent (result.data.map Json.stringify)])]),
               [.toolInvoke name args])
            else
              (jsonRPCSuccess id
                (.obj [("content", .arr [textContent
                          (some (Json.stringify (.obj (optStrField "error" result.error))))]),
                       ("isError", .bool true)]),
               [.toolInvoke name args])
  | "resources/list" => (jsonRPCSuccess id (.obj [("resources", .arr [])]), [])
  | "resources/read" => (jsonRPCError id (-32601) "Resources not implemented", [])
  | "prompts/list" => (jsonRPCSuccess id (.obj [("prompts", .arr [])]), [])
  | "prompts/get" => (jsonRPCError id (-32601) "Prompts not implemented", [])
  | "ping" => (jsonRPCSuccess id (.obj []), [])
  | m => (jsonRPCError id (-32601) ("Method not found: " ++ m), [])

/-- The batch loop of the POST `/mcp` block (src/index.ts lines 576-590):
malformed elements push an `Invalid Request` error (echoing `id ?? null`)
without dispatching; well-formed elements are dispatched, and their
response is pushed only when `id` is present. -/
def processMessages (r : ApiKeyValidationResult) (oracle : ToolOracle)
    (resetDate : String) : List RawMessage → List JSONRPCResponse × List Event
  | [] => ([], [])
  | m :: rest =>
      let tail := processMessages r oracle resetDate rest
      if validFormat m then
        let h := handleMCPMessage m r oracle resetDate
        if m.id.isSome then (h.1 :: tail.1, h.2 ++ tail.2)
        else (tail.1, h.2 ++ tail.2)
      else
        (jsonRPCError (m.id.getD .null) (-32600) "Invalid Request" :: tail.1, tail.2)

/-- The outcome of `await request.json()` on a POST body: a parse
failure, the JSON literal `null` (property access on it throws), a
single non-array document, or an array.  Non-object documents and array
elements decode to the all-absent `RawMessage`. -/
inductive BodyOutcome where
  | parseError
  | nullBody
  | single (m : RawMessage)
  | batch (ms : List RawMessage)
deriving Repr

/-- An inbound POST request as the two JSON-RPC blocks see it. -/
structure HttpRequest where
  headers : RequestHeaders
  body : BodyOutcome
deriving Repr

/-- A response body: absent (a `null`/`undefined` `Response` body), a
JSON document, an SSE stream of `event: message` frames, or an uncaught
exception escaping the handler. -/
inductive ResponseBody where
  | empty
  | json (j : Json)
  | stream (frames : List Json)
  | crash
deriving Repr

/-- An HTTP response, restricted to what the claims observe: status,
body, and the `Mcp-Session-Id` header when set. -/
structure HttpResponse where
  status : Nat := 200
  body : ResponseBody
  mcpSessionId : Option String := none
deriving Repr

/-- `(request.headers.get('Accept') || '').includes('text/event-stream')`. -/
def wantsSSE (h : RequestHeaders) : Bool :=
  jsIncludes (h.accept.getD "") "text/event-stream"

/-- The POST `/mcp` block of the `fetch` handler (src/index.ts lines
523-633): extract and validate the credential, then parse the body,
run the batch loop, and answer as an SSE stream or as plain JSON
(`responses` for an array body, `responses[0]` otherwise — serializing
the `undefined` of an empty list yields an empty body).  `freshUuid`
stands for `crypto.randomUUID()`. -/
def mcpPost (req : HttpRequest) (collab : CollabOutcome) (oracle : ToolOracle)
    (resetDate : String) (freshUuid : String) : HttpResponse × List Event :=
  match extractApiKey req.headers with
  | none =>
      let e := createAuthErrorResponse .API_KEY_MISSING
      ({ status := e.2, body := .json e.1.toJson }, [])
  | some apiKey =>
      let v := validateApiKey apiKey collab
      if v.1.valid = false then
        let e := createAuthErrorResponse (getAuthError v.1) (authFailureData apiKey v.1)
        ({ status := e.2, body := .json e.1.toJson }, v.2)
      else
        match req.body with
        | .parseError =>
            ({ status := 400,
               body := .json (jsonRPCError .null (-32700) "Parse error").toJson },
             v.2 ++ [.parseBody])
        | b =>
            let isArray := match b with
              | .batch _ => true
              | _ => false
            let messages := match b with
              | .batch ms => ms
              | .single m => [m]
              | .nullBody => [{}]
              | .parseError => []
            let p := processMessages v.1 oracle resetDate messages
            let sessionId := jsOrString req.headers.mcpSessionId freshUuid
            if wantsSSE req.headers then
              ({ status := 200,
                 body := .stream (p.1.map JSONRPCResponse.toJson),
                 mcpSessionId := some sessionId },
               v.2 ++ [.parseBody] ++ p.2)
            else
              let responseBody :=
                if isArray then
                  ResponseBody.json (.arr (p.1.map JSONRPCResponse.toJson))
                else
                  match p.1.head? with
                  | some r0 => ResponseBody.json r0.toJson
                  | none => ResponseBody.empty
              ({ status := 200, body := responseBody, mcpSessionId := some sessionId },
               v.2 ++ [.parseBody] ++ p.2)

/-- The POST `/messages` block of the `fetch` handler (src/index.ts lines
637-709): same credential handling, then a single message is format
checked (rejecting with HTTP 400 and a null-id `Invalid Request` error)
and dispatched, the response returned as plain JSON regardless of `id`.
A `null` body throws on property access and escapes the handler; an
array body fails the formation check the same way a non-object does. -/
def messagesPost (req : HttpRequest) (collab : CollabOutcome) (oracle : ToolOracle)
    (resetDate : String) : HttpResponse × List Event :=
  match extractApiKey req.headers with
  | none =>
      let e := createAuthErrorResponse .API_KEY_MISSING
      ({ status := e.2, body := .json e.1.toJson }, [])
  | some apiKey =>
      let v := validateApiKey apiKey collab
      if v.1.valid = false then
        let e := createAuthErrorResponse (getAuthError v.1) (authFailureData apiKey v.1)
        ({ status := e.2, body := .json e.1.toJson }, v.2)
      else
        match req.body with
        | .parseError =>
            ({ status := 400,
               body := .json (jsonRPCError .null (-32700) "Parse error").toJson },
             v.2 ++ [.parseBody])
        | .nullBody =>
            ({ status := 500, body := .crash }, v.2 ++ [.parseBody])
        | .single m =>
            if validFormat m then
              let h := handleMCPMessage m v.1 oracle resetDate
              ({ status := 200, body := .json h.1.toJson }, v.2 ++ [.parseBody] ++ h.2)
            else
              ({ status := 400,
                 body := .json (jsonRPCError .null (-32600) "Invalid Request").toJson },
               v.2 ++ [.parseBody])
        | .batch _ =>
            ({ status := 400,
               body := .json (jsonRPCError .null (-32600) "Invalid Request").toJson },
             v.2 ++ [.parseBody])

/-- The message list the POST `/mcp` block runs its loop over
(`Array.isArray(body) ? body : [body]`), per decoded body shape —
the same list the `messages` binding inside `mcpPost` computes. -/
def mcpBodyMessages : BodyOutcome → List RawMessage
  | .batch ms => ms
  | .single m => [m]
  | .nullBody => [{}]
  | .parseError => []

/-- A batch element that contributes a response entry: it fails the
formation check (the loop pushes an `Invalid Request` error even when it
has no id) or it carries an id. -/
def contributesEntry (m : RawMessage) : Bool :=
  !validFormat m || m.id.isSome

/-- The response entry a contributing batch element produces. -/
def entryFor (r : ApiKeyValidationResult) (oracle : ToolOracle)
    (resetDate : String) (m : RawMessage) : JSONRPCResponse :=
  if validFormat m then (handleMCPMessage m r oracle resetDate).1
  else jsonRPCError (m.id.getD .null) (-32600) "Invalid Request"

/-- The key-validation call leaves either no collaborator event (fail-fast)
or exactly one. -/
theorem validateApiKey_trace (key : String) (collab : CollabOutcome) :
    (validateApiKey key collab).2 = []
    ∨ (validateApiKey key collab).2 = [.collabValidate key] := by
  unfold validateApiKey
  split
  · exact Or.inl rfl
  · cases collab <;> simp

/-- C6: a key that does not start with the literal prefix `kntor_` is
rejected with the `invalid_format` error tag, and the validation
collaborator is never called (the event trace is empty). -/
theorem bad_prefix_no_network (key : String) (collab : CollabOutcome)
    (h : jsStartsWith key "kntor_" = false) :
    validateApiKey key collab
      = ({ valid := false, error := some "invalid_format",
           message := some "API key must start with kntor_" }, []) := by
  simp [validateApiKey, h]

/-- Witness for C6 at the concrete key `abc`. -/
theorem bad_prefix_no_network_witness :
    validateApiKey "abc" CollabOutcome.networkError
      = ({ valid := false, error := some "invalid_format",
           message := some "API key must start with kntor_" }, []) :=
  bad_prefix_no_network "abc" CollabOutcome.networkError rfl

/-- C7 counterexample: a non-OK HTTP status from the validation
collaborator yields the `validation_error` tag, which `getAuthError`
maps to `API_KEY_INVALID` (HTTP 401) — not to the
server-configuration error kind the claim requires. -/
theorem http_error_maps_to_invalid_key :
    (validateApiKey "kntor_abc" (CollabOutcome.httpError "boom")).1.error
        = some "validation_error"
    ∧ getAuthError (validateApiKey "kntor_abc" (CollabOutcome.httpError "boom")).1
        = MCPErrorKind.API_KEY_INVALID
    ∧ getAuthError (validateApiKey "kntor_abc" (CollabOutcome.httpError "boom")).1
        ≠ MCPErrorKind.SERVER_CONFIG_ERROR
    ∧ (createAuthErrorResponse
        (getAuthError (validateApiKey "kntor_abc" (CollabOutcome.httpError "boom")).1)).2
        = 401 := by
  refine ⟨rfl, rfl, ?_, rfl⟩
  decide

/-- C7 (amended): for a well-prefixed key, a rejected fetch or an
unparseable collaborator body yields `internal_error` (mapped to the
server-configuration response, HTTP 500); a non-OK HTTP status yields
`validation_error` (mapped to the invalid-key response, HTTP 401); and
no collaborator failure is ever treated as a valid key. -/
theorem collab_failure_mapping (key : String)
    (hk : jsStartsWith key "kntor_" = true) :
    ((validateApiKey key .networkError).1.error = some "internal_error"
      ∧ getAuthError (validateApiKey key .networkError).1 = .SERVER_CONFIG_ERROR
      ∧ (createAuthErrorResponse (getAuthError (validateApiKey key .networkError).1)).2 = 500)
  ∧ ((validateApiKey key .jsonError).1.error = some "internal_error"
      ∧ getAuthError (validateApiKey key .jsonError).1 = .SERVER_CONFIG_ERROR
      ∧ (createAuthErrorResponse (getAuthError (validateApiKey key .jsonError).1)).2 = 500)
  ∧ (∀ b, (validateApiKey key (.httpError b)).1.error = some "validation_error"
      ∧ getAuthError (validateApiKey key (.httpError b)).1 = .API_KEY_INVALID
      ∧ (createAuthErrorResponse (getAuthError (validateApiKey key (.httpError b)).1)).2 = 401)
  ∧ (∀ collab, (validateApiKey key collab).1.valid = true →
      ∃ r, collab = .ok r ∧ r.valid = true) := by
  have hne : ¬ key = "" := by
    intro h
    subst h
    exact absurd hk (by decide)
  refine ⟨?_, ?_, ?_, ?_⟩
  · simp [validateApiKey, hk, hne, getAuthError, createAuthErrorResponse]
  · simp [validateApiKey, hk, hne, getAuthError, createAuthErrorResponse]
  · intro b
    simp [validateApiKey, hk, hne, getAuthError, createAuthErrorResponse]
  · intro collab hv
    cases collab with
    | ok r =>
        refine ⟨r, rfl, ?_⟩
        simpa [validateApiKey, hk, hne] using hv
    | networkError => simp [validateApiKey, hk, hne] at hv
    | httpError b => simp [validateApiKey, hk, hne] at hv
    | jsonError => simp [validateApiKey, hk, hne] at hv

/-- Witness for C7 at the concrete key `kntor_abc`. -/
theorem collab_failure_mapping_witness :
    (validateApiKey "kntor_abc" .networkError).1.error = some "internal_error"
    ∧ getAuthError (validateApiKey "kntor_abc" .networkError).1
        = .SERVER_CONFIG_ERROR :=
  ⟨(collab_failure_mapping "kntor_abc" rfl).1.1,
   (collab_failure_mapping "kntor_abc" rfl).1.2.1⟩

/-- C10 counterexample: an `x-api-key` header that is present with the
empty value is not used verbatim — the request falls through to the
`Authorization` header. -/
theorem empty_x_api_key_not_used :
    extractApiKey { xApiKey := some "", authorization := some "Bearer kntor_xyz" }
        = some "kntor_xyz"
    ∧ extractApiKey { xApiKey := some "", authorization := some "Bearer kntor_xyz" }
        ≠ some "" := by
  refine ⟨rfl, ?_⟩
  decide

/-- C10 (amended): a present, non-empty `x-api-key` header is used
verbatim regardless of `Authorization`; when `x-api-key` is absent or
empty, an `Authorization` header is used only when it starts with the
exact string `Bearer kntor_` (yielding the value with the first
`Bearer ` removed), and a Bearer token without the prefix yields no
credential, so the POST `/mcp` path rejects it as missing key
(code -32001), not as invalid format (-32002). -/
theorem extract_key_precedence (h : RequestHeaders) (b : BodyOutcome)
    (collab : CollabOutcome) (oracle : ToolOracle) (resetDate freshUuid : String) :
    (∀ s, h.xApiKey = some s → s ≠ "" → extractApiKey h = some s)
  ∧ (headerTruthy h.xApiKey = false →
      ∀ a, h.authorization = some a →
        (jsStartsWith a "Bearer kntor_" = true →
            extractApiKey h = some (jsReplaceFirst a "Bearer " ""))
        ∧ (jsStartsWith a "Bearer kntor_" = false → extractApiKey h = none))
  ∧ (extractApiKey h = none →
      (mcpPost ⟨h, b⟩ collab oracle resetDate freshUuid).1
        = { status := 401,
            body := .json (createAuthErrorResponse .API_KEY_MISSING).1.toJson }
      ∧ MCPErrorKind.API_KEY_MISSING.code = -32001
      ∧ MCPErrorKind.API_KEY_MISSING.code ≠ MCPErrorKind.API_KEY_INVALID_FORMAT.code) := by
  refine ⟨?_, ?_, ?_⟩
  · intro s hs hne
    simp [extractApiKey, headerTruthy, hs, hne]
  · intro ht a ha
    constructor
    · intro hsw
      simp [extractApiKey, ht, ha, hsw]
    · intro hsw
      simp [extractApiKey, ht, ha, hsw]
  · intro hn
    refine ⟨?_, rfl, by decide⟩
    simp [mcpPost, hn, createAuthErrorResponse]

/-- Witness for C10: both extraction branches at concrete headers. -/
theorem extract_key_precedence_witness :
    extractApiKey { xApiKey := some "kntor_live_99",
                    authorization := some "Bearer other" }
        = some "kntor_live_99"
    ∧ extractApiKey { authorization := some "Bearer kntor_live_99" }
        = some (jsReplaceFirst "Bearer kntor_live_99" "Bearer " "") :=
  ⟨(extract_key_precedence
      { xApiKey := some "kntor_live_99", authorization := some "Bearer other" }
      (.single {}) .networkError (fun _ _ _ => .returns { success := true })
      "d" "u").1 "kntor_live_99" rfl (by decide),
   ((extract_key_precedence { authorization := some "Bearer kntor_live_99" }
      (.single {}) .networkError (fun _ _ _ => .returns { success := true })
      "d" "u").2.1 rfl "Bearer kntor_live_99" rfl).1 rfl⟩

/-- C1 counterexample: a batch whose one element is malformed and
id-less still yields one response entry, though zero input messages
carry an id — the response count does not equal the id-bearing count. -/
theorem invalid_notification_contributes_entry :
    (processMessages { valid := true } (fun _ _ _ => .returns { success := true }) "d"
        [{ method := some "ping" }]).1.length = 1
    ∧ List.countP (fun m => m.id.isSome) [({ method := some "ping" } : RawMessage)] = 0 :=
  ⟨rfl, rfl⟩

/-- C1 (amended): the response list of a batch is exactly the in-order
image of the elements that either carry an id or fail the formation
check; well-formed notifications contribute zero entries, and the entry
count equals the count of such contributing elements. -/
theorem batch_responses_filter_map (r : ApiKeyValidationResult)
    (oracle : ToolOracle) (resetDate : String) (msgs : List RawMessage) :
    (processMessages r oracle resetDate msgs).1
        = (msgs.filter contributesEntry).map (entryFor r oracle resetDate)
    ∧ (processMessages r oracle resetDate msgs).1.length
        = msgs.countP contributesEntry := by
  have h1 : (processMessages r oracle resetDate msgs).1
      = (msgs.filter contributesEntry).map (entryFor r oracle resetDate) := by
    induction msgs with
    | nil => simp [processMessages]
    | cons m rest ih =>
        by_cases hv : validFormat m = true
        · by_cases hid : m.id.isSome = true
          · simp [processMessages, hv, hid, contributesEntry, entryFor, ih]
          · simp only [Bool.not_eq_true] at hid
            simp [processMessages, hv, hid, contributesEntry, entryFor, ih]
        · simp only [Bool.not_eq_true] at hv
          simp [processMessages, hv, contributesEntry, entryFor, ih]
  refine ⟨h1, ?_⟩
  simp [h1, List.countP_eq_length_filter]

/-- C2: whenever tool execution fails (unknown tool, schema-validation
throw, any executor throw, or a returned failure), `tools/call` answers
with a JSON-RPC success envelope whose content wraps the error text and
whose `isError` member is true — never with a top-level `error` member. -/
theorem tools_call_failure_success_envelope
    (msg : RawMessage) (r : ApiKeyValidationResult) (oracle : ToolOracle)
    (resetDate : String) (name : String)
    (hmethod : msg.method = some "tools/call")
    (hname : paramsName msg.params = some name)
    (hrate : rateLimited r = false)
    (hfail : (executeTool oracle name (paramsArguments msg.params)
        (buildContext r)).success = false) :
    handleMCPMessage msg r oracle resetDate
      = (jsonRPCSuccess (msg.id.getD .null)
          (.obj [("content", .arr [textContent (some (Json.stringify
                    (.obj (optStrField "error"
                      (executeTool oracle name (paramsArguments msg.params)
                        (buildContext r)).error))))]),
                 ("isError", .bool true)]),
         [.toolInvoke name (paramsArguments msg.params)])
    ∧ (handleMCPMessage msg r oracle resetDate).1.error = none := by
  constructor
  · simp [handleMCPMessage, hmethod, hname, hrate, hfail]
  · simp [handleMCPMessage, hmethod, hname, hrate, hfail, jsonRPCSuccess]

/-- Witness for C2: a `tools/call` naming an unregistered tool yields
the `isError` success envelope. -/
theorem tools_call_failure_success_envelope_witness :
    handleMCPMessage
        { jsonrpc := some "2.0", id := some (.n 1), method := some "tools/call",
          params := some { name := some "nonexistent_tool" } }
        { valid := true } (fun _ _ _ => .returns { success := true }) "d"
      = (jsonRPCSuccess (RpcId.n 1)
          (.obj [("content", .arr [textContent (some (Json.stringify
                    (.obj (optStrField "error"
                      (executeTool (fun _ _ _ => .returns { success := true })
                        "nonexistent_tool"
                        (paramsArguments (some { name := some "nonexistent_tool" }))
                        (buildContext { valid := true })).error))))]),
                 ("isError", .bool true)]),
         [.toolInvoke "nonexistent_tool"
            (paramsArguments (some { name := some "nonexistent_tool" }))]) :=
  (tools_call_failure_success_envelope
    { jsonrpc := some "2.0", id := some (.n 1), method := some "tools/call",
      params := some { name := some "nonexistent_tool" } }
    { valid := true } (fun _ _ _ => .returns { success := true }) "d"
    "nonexistent_tool" rfl rfl rfl rfl).1

/-- C4 counterexample: a `tools/call` with quota exhausted but no
`params.name` is answered with invalid-params (-32602), not with the
rate-limit error (-32006). -/
theorem rate_limited_missing_name_invalid_params :
    (handleMCPMessage
        { jsonrpc := some "2.0", id := some (.n 7), method := some "tools/call" }
        { valid := true, remaining_calls := some 0 }
        (fun _ _ _ => .returns { success := true }) "2026-11-01T00:00:00.000Z").1
      = jsonRPCError (RpcId.n 7) (-32602) "Invalid params: tool name required"
    ∧ ((handleMCPMessage
        { jsonrpc := some "2.0", id := some (.n 7), method := some "tools/call" }
        { valid := true, remaining_calls := some 0 }
        (fun _ _ _ => .returns { success := true }) "2026-11-01T00:00:00.000Z").1).error.map
          RpcError.code ≠ some (-32006) := by
  refine ⟨rfl, ?_⟩
  decide

/-- C4 (amended): a `tools/call` carrying a (truthy) tool name, under a
validation result whose `remaining_calls` is tracked and non-positive,
is answered with the rate-limit error (-32006) and the tool executor is
never invoked (the invocation trace is empty). -/
theorem rate_limit_short_circuits
    (msg : RawMessage) (r : ApiKeyValidationResult) (oracle : ToolOracle)
    (resetDate : String) (name : String) (n : Int)
    (hmethod : msg.method = some "tools/call")
    (hname : paramsName msg.params = some name)
    (hn : r.remaining_calls = some n) (hle : n ≤ 0) :
    handleMCPMessage msg r oracle resetDate
      = (jsonRPCError (msg.id.getD .null) (-32006) "Rate limit exceeded"
          (some (rateLimitData r resetDate)), []) := by
  have hrl : rateLimited r = true := by simp [rateLimited, hn, hle]
  simp [handleMCPMessage, hmethod, hname, hrl, MCPErrorKind.code, MCPErrorKind.msg]

/-- Witness for C4 at a concrete exhausted-quota call. -/
theorem rate_limit_short_circuits_witness :
    handleMCPMessage
        { jsonrpc := some "2.0", id := some (.n 2), method := some "tools/call",
          params := some { name := some "get_availability" } }
        { valid := true, remaining_calls := some 0, monthly_limit := some 100,
          current_usage := some 100 }
        (fun _ _ _ => .returns { success := true }) "2026-11-01T00:00:00.000Z"
      = (jsonRPCError (RpcId.n 2) (-32006) "Rate limit exceeded"
          (some (rateLimitData
            { valid := true, remaining_calls := some 0, monthly_limit := some 100,
              current_usage := some 100 } "2026-11-01T00:00:00.000Z")), []) :=
  rate_limit_short_circuits
    { jsonrpc := some "2.0", id := some (.n 2), method := some "tools/call",
      params := some { name := some "get_availability" } }
    { valid := true, remaining_calls := some 0, monthly_limit := some 100,
      current_usage := some 100 }
    (fun _ _ _ => .returns { success := true }) "2026-11-01T00:00:00.000Z"
    "get_availability" 0 rfl rfl rfl (by decide)

/-- The batch loop is element-wise: responses and events of a
concatenation are the concatenations. -/
theorem processMessages_append (r : ApiKeyValidationResult) (oracle : ToolOracle)
    (resetDate : String) (xs ys : List RawMessage) :
    processMessages r oracle resetDate (xs ++ ys)
      = ((processMessages r oracle resetDate xs).1
           ++ (processMessages r oracle resetDate ys).1,
         (processMessages r oracle resetDate xs).2
           ++ (processMessages r oracle resetDate ys).2) := by
  induction xs with
  | nil => simp [processMessages]
  | cons x xs ih =>
      by_cases hv : validFormat x = true
      · by_cases hid : x.id.isSome = true
        · simp [processMessages, hv, hid, ih]
        · simp only [Bool.not_eq_true] at hid
          simp [processMessages, hv, hid, ih]
      · simp only [Bool.not_eq_true] at hv
        simp [processMessages, hv, ih]

/-- C5: a message failing the formation check (`jsonrpc` not `2.0`, or
`method` absent/empty) is rejected with the Invalid Request error
(-32600, not -32601) before dispatch — per message at any position of a
batch (no tool event is contributed by it), and on the `/messages`
single path (HTTP 400, null id). -/
theorem malformed_message_invalid_request
    (m : RawMessage) (rest : List RawMessage) (r : ApiKeyValidationResult)
    (oracle : ToolOracle) (resetDate : String)
    (hm : validFormat m = false) :
    processMessages r oracle resetDate (m :: rest)
      = ((jsonRPCError (m.id.getD .null) (-32600) "Invalid Request")
           :: (processMessages r oracle resetDate rest).1,
         (processMessages r oracle resetDate rest).2)
    ∧ (∀ pre post, processMessages r oracle resetDate (pre ++ m :: post)
        = ((processMessages r oracle resetDate pre).1
             ++ (jsonRPCError (m.id.getD .null) (-32600) "Invalid Request")
             :: (processMessages r oracle resetDate post).1,
           (processMessages r oracle resetDate pre).2
             ++ (processMessages r oracle resetDate post).2))
    ∧ (∀ (hreq : RequestHeaders) (collab : CollabOutcome) (k : String),
        extractApiKey hreq = some k →
        ((validateApiKey k collab).1).valid = true →
        messagesPost ⟨hreq, .single m⟩ collab oracle resetDate
          = ({ status := 400,
               body := .json (jsonRPCError .null (-32600) "Invalid Request").toJson },
             (validateApiKey k collab).2 ++ [.parseBody])) := by
  refine ⟨?_, ?_, ?_⟩
  · simp [processMessages, hm]
  · intro pre post
    rw [processMessages_append]
    simp [processMessages, hm]
  · intro hreq collab k hk hv
    simp [messagesPost, hk, hv, hm]

/-- Witness for C5: a single-element batch with a message lacking the
`jsonrpc` member. -/
theorem malformed_message_invalid_request_witness :
    processMessages { valid := true } (fun _ _ _ => .returns { success := true }) "d"
        [{ method := some "tools/list" }]
      = ((jsonRPCError RpcId.null (-32600) "Invalid Request")
           :: (processMessages { valid := true }
                (fun _ _ _ => .returns { success := true }) "d" []).1,
         (processMessages { valid := true }
            (fun _ _ _ => .returns { success := true }) "d" []).2) :=
  (malformed_message_invalid_request { method := some "tools/list" } []
    { valid := true } (fun _ _ _ => .returns { success := true }) "d" rfl).1

/-- C3: on both POST paths, a missing credential yields HTTP 401 with
the missing-key error (-32001) and an empty event trace (the body is
never parsed), and any failed validation leaves a trace with no
body-parse and no tool-invocation event. -/
theorem auth_precedes_parse
    (req : HttpRequest) (collab : CollabOutcome) (oracle : ToolOracle)
    (resetDate freshUuid : String) :
    (extractApiKey req.headers = none →
        mcpPost req collab oracle resetDate freshUuid
          = ({ status := 401,
               body := .json (createAuthErrorResponse .API_KEY_MISSING).1.toJson }, [])
      ∧ messagesPost req collab oracle resetDate
          = ({ status := 401,
               body := .json (createAuthErrorResponse .API_KEY_MISSING).1.toJson }, [])
      ∧ MCPErrorKind.API_KEY_MISSING.code = -32001)
  ∧ (∀ k, extractApiKey req.headers = some k →
      ((validateApiKey k collab).1).valid = false →
        Event.parseBody ∉ (mcpPost req collab oracle resetDate freshUuid).2
      ∧ (∀ n a, Event.toolInvoke n a ∉ (mcpPost req collab oracle resetDate freshUuid).2)
      ∧ Event.parseBody ∉ (messagesPost req collab oracle resetDate).2
      ∧ (∀ n a, Event.toolInvoke n a ∉ (messagesPost req collab oracle resetDate).2)) := by
  constructor
  · intro hn
    refine ⟨?_, ?_, rfl⟩
    · simp [mcpPost, hn, createAuthErrorResponse]
    · simp [messagesPost, hn, createAuthErrorResponse]
  · intro k hk hv
    have hm : (mcpPost req collab oracle resetDate freshUuid).2
        = (validateApiKey k collab).2 := by
      simp [mcpPost, hk, hv]
    have hg : (messagesPost req collab oracle resetDate).2
        = (validateApiKey k collab).2 := by
      simp [messagesPost, hk, hv]
    rcases validateApiKey_trace k collab with h | h <;>
      exact ⟨by simp [hm, h], fun n a => by simp [hm, h],
             by simp [hg, h], fun n a => by simp [hg, h]⟩

/-- Witness for C3: a credential-less POST to `/mcp` is answered 401
missing-key with nothing parsed or executed. -/
theorem auth_precedes_parse_witness :
    mcpPost ⟨{}, .single {}⟩ .networkError
        (fun _ _ _ => .returns { success := true }) "d" "u"
      = ({ status := 401,
           body := .json (createAuthErrorResponse .API_KEY_MISSING).1.toJson }, []) :=
  ((auth_precedes_parse ⟨{}, .single {}⟩ .networkError
      (fun _ _ _ => .returns { success := true }) "d" "u").1 rfl).1

/-- C8 counterexample: a single well-formed notification POSTed with a
valid key gets an empty body from `/mcp` but a full JSON-RPC response
(null id) from `/messages` — the two endpoints do not agree. -/
theorem notification_differs_across_endpoints :
    (mcpPost ⟨{ xApiKey := some "kntor_w" },
        .single { jsonrpc := some "2.0", method := some "ping" }⟩
        (.ok { valid := true }) (fun _ _ _ => .returns { success := true }) "d" "u").1.body
      = ResponseBody.empty
    ∧ (messagesPost ⟨{ xApiKey := some "kntor_w" },
        .single { jsonrpc := some "2.0", method := some "ping" }⟩
        (.ok { valid := true }) (fun _ _ _ => .returns { success := true }) "d").1.body
      = ResponseBody.json ((jsonRPCSuccess RpcId.null (Json.obj [])).toJson)
    ∧ ResponseBody.empty
        ≠ ResponseBody.json ((jsonRPCSuccess RpcId.null (Json.obj [])).toJson) := by
  refine ⟨rfl, rfl, ?_⟩
  simp

/-- C8 (amended): for a single (non-array) well-formed message that
carries an id, POSTed without an event-stream Accept header, `/messages`
and `/mcp` produce the same response body and the same HTTP status. -/
theorem messages_mcp_single_equiv
    (req : HttpRequest) (collab : CollabOutcome) (oracle : ToolOracle)
    (resetDate freshUuid : String) (m : RawMessage)
    (hbody : req.body = .single m)
    (hv : validFormat m = true) (hid : m.id.isSome = true)
    (hsse : wantsSSE req.headers = false) :
    (mcpPost req collab oracle resetDate freshUuid).1.body
        = (messagesPost req collab oracle resetDate).1.body
    ∧ (mcpPost req collab oracle resetDate freshUuid).1.status
        = (messagesPost req collab oracle resetDate).1.status := by
  cases hex : extractApiKey req.headers with
  | none => constructor <;> simp [mcpPost, messagesPost, hex]
  | some k =>
      cases hval : ((validateApiKey k collab).1).valid with
      | false => constructor <;> simp [mcpPost, messagesPost, hex, hval]
      | true =>
          constructor <;>
            simp [mcpPost, messagesPost, hex, hval, hbody, hv, hid, hsse,
              processMessages]

/-- Witness for C8: the `/messages` and `/mcp` answers to an id-bearing
ping coincide. -/
theorem messages_mcp_single_equiv_witness :
    (mcpPost ⟨{ xApiKey := some "kntor_w2" },
        .single { jsonrpc := some "2.0", id := some (.n 5), method := some "ping" }⟩
        (.ok { valid := true }) (fun _ _ _ => .returns { success := true }) "d" "u").1.body
      = (messagesPost ⟨{ xApiKey := some "kntor_w2" },
          .single { jsonrpc := some "2.0", id := some (.n 5), method := some "ping" }⟩
          (.ok { valid := true }) (fun _ _ _ => .returns { success := true }) "d").1.body :=
  (messages_mcp_single_equiv
    ⟨{ xApiKey := some "kntor_w2" },
     .single { jsonrpc := some "2.0", id := some (.n 5), method := some "ping" }⟩
    (.ok { valid := true }) (fun _ _ _ => .returns { success := true }) "d" "u"
    { jsonrpc := some "2.0", id := some (.n 5), method := some "ping" }
    rfl rfl rfl rfl).1

/-- C9 counterexample: a POST to `/mcp` with a valid key whose single
non-array body is a well-formed notification is answered HTTP 200 with
an empty body — not non-empty JSON. -/
theorem single_notification_empty_body :
    (mcpPost ⟨{ xApiKey := some "kntor_n" },
        .single { jsonrpc := some "2.0", method := some "notifications/initialized" }⟩
        (.ok { valid := true }) (fun _ _ _ => .returns { success := true }) "d" "u").1
      = { status := 200, body := ResponseBody.empty, mcpSessionId := some "u" } :=
  rfl

/-- The batch loop produces one response entry per contributing element. -/
theorem processMessages_length (r : ApiKeyValidationResult) (oracle : ToolOracle)
    (resetDate : String) (msgs : List RawMessage) :
    (processMessages r oracle resetDate msgs).1.length
      = msgs.countP contributesEntry := by
  induction msgs with
  | nil => simp [processMessages]
  | cons m rest ih =>
      by_cases hv : validFormat m = true
      · by_cases hid : m.id.isSome = true
        · simp [processMessages, hv, hid, contributesEntry, List.countP_cons, ih]
        · simp only [Bool.not_eq_true] at hid
          simp [processMessages, hv, hid, contributesEntry, List.countP_cons, ih]
      · simp only [Bool.not_eq_true] at hv
        simp [processMessages, hv, contributesEntry, List.countP_cons, ih]

/-- The POST `/mcp` block answers with a JSON document, an empty body,
or an SSE stream — never with an escaping exception. -/
theorem mcpPost_body_cases (req : HttpRequest) (collab : CollabOutcome)
    (oracle : ToolOracle) (resetDate freshUuid : String) :
    (∃ j, (mcpPost req collab oracle resetDate freshUuid).1.body
        = ResponseBody.json j)
    ∨ (mcpPost req collab oracle resetDate freshUuid).1.body = ResponseBody.empty
    ∨ ∃ frames, (mcpPost req collab oracle resetDate freshUuid).1.body
        = ResponseBody.stream frames := by
  cases hex : extractApiKey req.headers with
  | none => exact Or.inl (by simp [mcpPost, hex])
  | some k =>
      cases hval : ((validateApiKey k collab).1).valid with
      | false => exact Or.inl (by simp [mcpPost, hex, hval])
      | true =>
          cases hb : req.body with
          | parseError => exact Or.inl (by simp [mcpPost, hex, hval, hb])
          | nullBody =>
              by_cases hsse : wantsSSE req.headers = true
              · exact Or.inr (Or.inr (by simp [mcpPost, hex, hval, hb, hsse]))
              · simp only [Bool.not_eq_true] at hsse
                exact Or.inl (by
                  simp [mcpPost, hex, hval, hb, hsse, processMessages, validFormat,
                    methodTruthy])
          | batch ms =>
              by_cases hsse : wantsSSE req.headers = true
              · exact Or.inr (Or.inr (by simp [mcpPost, hex, hval, hb, hsse]))
              · simp only [Bool.not_eq_true] at hsse
                exact Or.inl (by simp [mcpPost, hex, hval, hb, hsse])
          | single m =>
              by_cases hsse : wantsSSE req.headers = true
              · exact Or.inr (Or.inr (by simp [mcpPost, hex, hval, hb, hsse]))
              · simp only [Bool.not_eq_true] at hsse
                by_cases hvm : validFormat m = true
                · by_cases hid : m.id.isSome = true
                  · exact Or.inl (by
                      simp [mcpPost, hex, hval, hb, hsse, processMessages, hvm, hid])
                  · simp only [Bool.not_eq_true] at hid
                    exact Or.inr (Or.inl (by
                      simp [mcpPost, hex, hval, hb, hsse, processMessages, hvm, hid]))
                · simp only [Bool.not_eq_true] at hvm
                  exact Or.inl (by
                    simp [mcpPost, hex, hval, hb, hsse, processMessages, hvm])

/-- C9 (amended): on the two JSON-RPC POST paths, every response body is
a JSON document — every error case included — except exactly: the
non-streaming `/mcp` body is empty iff authentication succeeded and the
body was a single (non-array) well-formed message without an id; the
streaming `/mcp` body is an SSE stream (reached whenever authentication
succeeds, the body parses and the client accepts event-stream), carrying
one frame per id-bearing-or-malformed element — zero frames for a body
of well-formed notifications only; and `/messages` lets an uncaught
TypeError escape (no JSON at all) iff authentication succeeded and the
parsed body was the JSON literal `null`.  `/mcp` never lets an
exception escape. -/
theorem post_body_characterization
    (req : HttpRequest) (collab : CollabOutcome) (oracle : ToolOracle)
    (resetDate freshUuid : String) :
    ((mcpPost req collab oracle resetDate freshUuid).1.body = ResponseBody.empty
      ↔ wantsSSE req.headers = false
        ∧ ∃ k m, extractApiKey req.headers = some k
            ∧ ((validateApiKey k collab).1).valid = true
            ∧ req.body = .single m ∧ validFormat m = true ∧ m.id = none)
  ∧ ((mcpPost req collab oracle resetDate freshUuid).1.body ≠ ResponseBody.crash)
  ∧ (∀ frames, (mcpPost req collab oracle resetDate freshUuid).1.body
        = ResponseBody.stream frames →
      wantsSSE req.headers = true
        ∧ frames.length = (mcpBodyMessages req.body).countP contributesEntry)
  ∧ (wantsSSE req.headers = true →
      ∀ k, extractApiKey req.headers = some k →
        ((validateApiKey k collab).1).valid = true → req.body ≠ .parseError →
      ∃ frames, (mcpPost req collab oracle resetDate freshUuid).1.body
        = ResponseBody.stream frames)
  ∧ ((messagesPost req collab oracle resetDate).1.body = ResponseBody.crash
      ↔ ∃ k, extractApiKey req.headers = some k
          ∧ ((validateApiKey k collab).1).valid = true ∧ req.body = .nullBody)
  ∧ ((messagesPost req collab oracle resetDate).1.body ≠ ResponseBody.crash →
      ∃ j, (messagesPost req collab oracle resetDate).1.body = ResponseBody.json j)
  ∧ ((mcpPost req collab oracle resetDate freshUuid).1.body ≠ ResponseBody.empty →
      (∀ frames, (mcpPost req collab oracle resetDate freshUuid).1.body
          ≠ ResponseBody.stream frames) →
      ∃ j, (mcpPost req collab oracle resetDate freshUuid).1.body
        = ResponseBody.json j) := by
  refine ⟨?_, ?_, ?_, ?_, ?_, ?_, ?_⟩
  · cases hex : extractApiKey req.headers with
    | none => simp [mcpPost, hex]
    | some k =>
        cases hval : ((validateApiKey k collab).1).valid with
        | false => simp [mcpPost, hex, hval]
        | true =>
            by_cases hsse : wantsSSE req.headers = true
            · cases hb : req.body with
              | parseError => simp [mcpPost, hex, hval, hb, hsse]
              | nullBody => simp [mcpPost, hex, hval, hb, hsse]
              | batch ms => simp [mcpPost, hex, hval, hb, hsse]
              | single m => simp [mcpPost, hex, hval, hb, hsse]
            · simp only [Bool.not_eq_true] at hsse
              cases hb : req.body with
              | parseError => simp [mcpPost, hex, hval, hb, hsse]
              | nullBody =>
                  simp [mcpPost, hex, hval, hb, hsse, processMessages, validFormat,
                    methodTruthy]
              | batch ms => simp [mcpPost, hex, hval, hb, hsse]
              | single m =>
                  by_cases hvm : validFormat m = true
                  · cases hid : m.id with
                    | none =>
                        simp [mcpPost, hex, hval, hb, hsse, processMessages, hvm, hid]
                    | some i =>
                        simp [mcpPost, hex, hval, hb, hsse, processMessages, hvm, hid]
                  · simp only [Bool.not_eq_true] at hvm
                    simp [mcpPost, hex, hval, hb, hsse, processMessages, hvm]
  · rcases mcpPost_body_cases req collab oracle resetDate freshUuid with
      ⟨j, h⟩ | h | ⟨f, h⟩ <;> simp [h]
  · intro frames hstream
    cases hex : extractApiKey req.headers with
    | none => simp [mcpPost, hex] at hstream
    | some k =>
        cases hval : ((validateApiKey k collab).1).valid with
        | false => simp [mcpPost, hex, hval] at hstream
        | true =>
            cases hb : req.body with
            | parseError => simp [mcpPost, hex, hval, hb] at hstream
            | nullBody =>
                by_cases hsse : wantsSSE req.headers = true
                · refine ⟨hsse, ?_⟩
                  simp [mcpPost, hex, hval, hb, hsse] at hstream
                  simp [← hstream, processMessages_length, mcpBodyMessages, hb]
                · simp only [Bool.not_eq_true] at hsse
                  simp [mcpPost, hex, hval, hb, hsse, processMessages, validFormat,
                    methodTruthy] at hstream
            | batch ms =>
                by_cases hsse : wantsSSE req.headers = true
                · refine ⟨hsse, ?_⟩
                  simp [mcpPost, hex, hval, hb, hsse] at hstream
                  simp [← hstream, processMessages_length, mcpBodyMessages, hb]
                · simp only [Bool.not_eq_true] at hsse
                  simp [mcpPost, hex, hval, hb, hsse] at hstream
            | single m =>
                by_cases hsse : wantsSSE req.headers = true
                · refine ⟨hsse, ?_⟩
                  simp [mcpPost, hex, hval, hb, hsse] at hstream
                  simp [← hstream, processMessages_length, mcpBodyMessages, hb]
                · simp only [Bool.not_eq_true] at hsse
                  by_cases hvm : validFormat m = true
                  · by_cases hid : m.id.isSome = true
                    · simp [mcpPost, hex, hval, hb, hsse, processMessages, hvm,
                        hid] at hstream
                    · simp only [Bool.not_eq_true] at hid
                      simp [mcpPost, hex, hval, hb, hsse, processMessages, hvm,
                        hid] at hstream
                  · simp only [Bool.not_eq_true] at hvm
                    simp [mcpPost, hex, hval, hb, hsse, processMessages,
                      hvm] at hstream
  · intro hsse k hex hval hne
    cases hb : req.body with
    | parseError => exact absurd hb hne
    | nullBody => simp [mcpPost, hex, hval, hb, hsse]
    | batch ms => simp [mcpPost, hex, hval, hb, hsse]
    | single m => simp [mcpPost, hex, hval, hb, hsse]
  · cases hex : extractApiKey req.headers with
    | none => simp [messagesPost, hex]
    | some k =>
        cases hval : ((validateApiKey k collab).1).valid with
        | false => simp [messagesPost, hex, hval]
        | true =>
            cases hb : req.body with
            | parseError => simp [messagesPost, hex, hval, hb]
            | nullBody => simp [messagesPost, hex, hval, hb]
            | batch ms => simp [messagesPost, hex, hval, hb]
            | single m =>
                by_cases hvm : validFormat m = true
                · simp [messagesPost, hex, hval, hb, hvm]
                · simp only [Bool.not_eq_true] at hvm
                  simp [messagesPost, hex, hval, hb, hvm]
  · intro hnc
    cases hex : extractApiKey req.headers with
    | none => simp [messagesPost, hex]
    | some k =>
        cases hval : ((validateApiKey k collab).1).valid with
        | false => simp [messagesPost, hex, hval]
        | true =>
            cases hb : req.body with
            | parseError => simp [messagesPost, hex, hval, hb]
            | nullBody =>
                exact absurd (by simp [messagesPost, hex, hval, hb]) hnc
            | batch ms => simp [messagesPost, hex, hval, hb]
            | single m =>
                by_cases hvm : validFormat m = true
                · simp [messagesPost, hex, hval, hb, hvm]
                · simp only [Bool.not_eq_true] at hvm
                  simp [messagesPost, hex, hval, hb, hvm]
  · intro hne hns
    rcases mcpPost_body_cases req collab oracle resetDate freshUuid with
      ⟨j, h⟩ | h | ⟨f, h⟩
    · exact ⟨j, h⟩
    · exact absurd h hne
    · exact absurd h (hns f)

/-- Witness for C9: a POST of the JSON literal `null` to `/messages`
with a valid key lets the TypeError escape. -/
theorem post_body_characterization_witness :
    (messagesPost ⟨{ xApiKey := some "kntor_c9" }, .nullBody⟩
        (.ok { valid := true }) (fun _ _ _ => .returns { success := true }) "d").1.body
      = ResponseBody.crash :=
  ((post_body_characterization ⟨{ xApiKey := some "kntor_c9" }, .nullBody⟩
      (.ok { valid := true }) (fun _ _ _ => .returns { success := true })
      "d" "u").2.2.2.2.1).mpr ⟨"kntor_c9", rfl, rfl, rfl⟩

end KntorMcp
